import Mathlib

/-!
Shallow embedding of `tdakkota/trolljitrs` (Go), files `troll.go` and
`handle_message.go`.  External Telegram calls are modelled by oracle
parameters supplying their results; side effects (log lines, outbound
calls) are recorded in an explicit event list.
-/

namespace Trolljitrs

/-- Mirror of `tg.InputPeerUser` (the fields the program uses). -/
structure InputPeerUser where
  userID : Int
  accessHash : Int
deriving DecidableEq, Repr

/-- Mirror of `tg.Document` (opaque asset descriptor; fields the program copies). -/
structure Document where
  id : Int
  accessHash : Int
deriving DecidableEq, Repr

/-- Mirror of `tg.DocumentClass`: either an empty document or a real one. -/
inductive DocumentClass where
  | documentEmpty
  | document (d : Document)
deriving DecidableEq, Repr

/-- Mirror of `DocumentClass.AsNotEmpty`: `some` exactly on real documents. -/
def DocumentClass.asNotEmpty : DocumentClass → Option Document
  | .documentEmpty => none
  | .document d => some d

/-- Mirror of `tg.PeerClass` as returned by `msg.GetPeerID()`. -/
inductive PeerClass where
  | user (userID : Int)
  | chat (chatID : Int)
  | channel (channelID : Int)
deriving DecidableEq, Repr

/-- Mirror of `*tg.Message` (the plain-message variant), fields used by the handler. -/
structure Message where
  out : Bool
  peerID : PeerClass
  id : Int
  message : String
  date : Int
deriving DecidableEq, Repr

/-- Mirror of `tg.MessageClass`: plain message, service message, or empty. -/
inductive MessageClass where
  | message (m : Message)
  | messageService
  | messageEmpty
deriving DecidableEq, Repr

/-- Mirror of `tg.UpdateNewMessage` (only the `Message` field is read). -/
structure UpdateNewMessage where
  message : MessageClass
deriving DecidableEq, Repr

/-- Mirror of `tg.MessagesStickerSet` (only `Documents` is read). -/
structure StickerSet where
  documents : List DocumentClass
deriving DecidableEq, Repr

/-- Mirror of `rate.Limiter`: the configuration installed by `NewTroll`
(`rate.Every(15*time.Second), 1`) together with its dynamic token state. -/
structure Limiter where
  intervalSeconds : Nat
  burst : Nat
  tokens : Nat
  lastEventTime : Nat
deriving DecidableEq, Repr

/-- Mirror of the `Troll` struct: configuration plus the two lock-guarded
store fields (`resolved`, `sticker`); `nil` pointers become `none`. -/
structure Troll where
  domain : String
  stickerSet : String
  resolved : Option InputPeerUser
  sticker : Option Document
  limiter : Limiter
deriving DecidableEq, Repr

/-- Mirror of `NewTroll`: fresh store, limiter configured to one action per
15-second window (burst 1). -/
def NewTroll (domain stickerSet : String) : Troll :=
  { domain := domain
    stickerSet := stickerSet
    resolved := none
    sticker := none
    limiter := { intervalSeconds := 15, burst := 1, tokens := 1, lastEventTime := 0 } }

/-- Mirror of `Troll.checkUserID`: snapshot the resolved target under the
read lock; `(zero value, false)` when absent or when the user id differs. -/
def Troll.checkUserID (t : Troll) (id : Int) : InputPeerUser × Bool :=
  match t.resolved with
  | none => (⟨0, 0⟩, false)
  | some resolved =>
    if resolved.userID ≠ id then (⟨0, 0⟩, false)
    else (resolved, true)

/-- Mirror of `Troll.checkSticker`: snapshot the cached sticker under the
read lock; `(zero value, false)` when absent. -/
def Troll.checkSticker (t : Troll) : Document × Bool :=
  match t.sticker with
  | none => (⟨0, 0⟩, false)
  | some sticker => (sticker, true)

/-- Observable side effects of the handler: log lines and outbound calls. -/
inductive Event where
  | logGotMessage (text : String) (date : Int)
  | logAnswerSticker (msgID : Int)
  | callReplyDocument (dest : InputPeerUser) (replyTo : Int) (doc : Document)
  | logDeleteMessage (msgID : Int)
  | callForwardIDs (dest : InputPeerUser) (msgID : Int)
  | logWarnForwardFailed (e : String)
  | callRevokeMessages (msgID : Int)
  | logWarnGetSticker (e : String)
  | callUpdateStatus
  | logWarnUpdateStatus (e : String)
deriving DecidableEq, Repr

/-- Results the transport hands back to one `OnNewMessage` run, plus the
value drawn from `rand.Int()`. -/
structure Oracle where
  randInt : Nat
  replyErr : Option String
  forwardErr : Option String
  deleteErr : Option String
deriving DecidableEq, Repr

/-- Mirror of `Troll.ignored`: log, then send the cached sticker as a reply;
the reply call's error is returned as-is. -/
def Troll.ignored (resolved : InputPeerUser) (msgID : Int) (sticker : Document)
    (o : Oracle) : List Event × Option String :=
  ([.logAnswerSticker msgID, .callReplyDocument resolved msgID sticker], o.replyErr)

/-- Mirror of `Troll.revoke`: log, forward the message to self (warn on
failure, continue), then revoke it; the revoke call's error is returned. -/
def Troll.revoke (resolved : InputPeerUser) (msgID : Int)
    (o : Oracle) : List Event × Option String :=
  ([.logDeleteMessage msgID, .callForwardIDs resolved msgID]
      ++ (match o.forwardErr with
          | some e => [.logWarnForwardFailed e]
          | none => [])
      ++ [.callRevokeMessages msgID],
    o.deleteErr)

/-- Mirror of `Troll.OnNewMessage`: the admission filter followed by the
randomized dispatch between `ignored` and `revoke`. -/
def Troll.OnNewMessage (t : Troll) (update : UpdateNewMessage)
    (o : Oracle) : List Event × Option String :=
  match update.message with
  | .message msg =>
    if msg.out then ([], none)
    else
      match msg.peerID with
      | .user uid =>
        let (resolved, ok) := t.checkUserID uid
        if ok then
          let logged : List Event := [.logGotMessage msg.message msg.date]
          let (sticker, sok) := t.checkSticker
          if sok && o.randInt % 2 == 0 then
            let (evts, err) := Troll.ignored resolved msg.id sticker o
            (logged ++ evts, err)
          else
            let (evts, err) := Troll.revoke resolved msg.id o
            (logged ++ evts, err)
        else ([], none)
      | _ => ([], none)
  | _ => ([], none)

/-- Mirror of `tg.InputPeerClass` as returned by `AsInputPeer`. -/
inductive InputPeerClass where
  | user (p : InputPeerUser)
  | chat (chatID : Int)
  | channel (channelID : Int)
deriving DecidableEq, Repr

/-- Mirror of `Troll.getUser`: resolve the configured domain; on success of
both the call and the `*tg.InputPeerUser` type assertion, store the peer. -/
def Troll.getUser (t : Troll) (resolveResult : Except String InputPeerClass) :
    Troll × Option String :=
  match resolveResult with
  | .error e => (t, some ("resolve " ++ t.domain ++ ": " ++ e))
  | .ok p =>
    match p with
    | .user userPeer => ({ t with resolved := some userPeer }, none)
    | _ => (t, some "unexpected type")

/-- Mirror of `Troll.getSticker`: fetch the sticker set, take the LAST
document, require it non-empty, and store it; errors leave the store as-is.
(The fetch-failure message in the source does not embed the call's error.) -/
def Troll.getSticker (t : Troll) (fetchResult : Except String StickerSet) :
    Troll × Option String :=
  match fetchResult with
  | .error _ => (t, some ("get sticker set " ++ t.stickerSet))
  | .ok set =>
    match set.documents.getLast? with
    | none => (t, some "sticker set is empty")
    | some lastDoc =>
      match lastDoc.asNotEmpty with
      | none => (t, some "last sticker is empty document")
      | some sticker => ({ t with sticker := some sticker }, none)

/-- Mirror of `Troll.setup`: `getUser` failure is fatal (wrapped, returned);
`getSticker` failure is only logged as a warning and `setup` returns nil. -/
def Troll.setup (t : Troll) (resolveResult : Except String InputPeerClass)
    (fetchResult : Except String StickerSet) : Troll × List Event × Option String :=
  let (t1, uerr) := t.getUser resolveResult
  match uerr with
  | some e => (t1, [], some ("get user: " ++ e))
  | none =>
    let (t2, serr) := t1.getSticker fetchResult
    match serr with
    | some e => (t2, [.logWarnGetSticker e], none)
    | none => (t2, [], none)

/-- The ticker interval of `Troll.statusLoop`, in seconds (`2 * time.Minute`). -/
def statusLoopInterval : Nat := 120

/-- Mirror of the `Troll.statusLoop` select loop over a finite schedule:
each list entry is one ticker firing with the result of the
`AccountUpdateStatus` call; the schedule ends when `ctx.Done()` fires, at
which point the loop returns `ctx.Err()` (here `ctxErr`). -/
def statusLoopRun : List (Option String) → String → List Event × String
  | [], ctxErr => ([], ctxErr)
  | r :: rest, ctxErr =>
    let step : List Event :=
      Event.callUpdateStatus ::
        (match r with
         | some e => [Event.logWarnUpdateStatus e]
         | none => [])
    let (evts, ret) := statusLoopRun rest ctxErr
    (step ++ evts, ret)

/-- Mirror of the `setup` task closure in `Run`: wraps a setup failure. -/
def setupTask (setupErr : Option String) : Option String :=
  setupErr.map (fun e => "setup: " ++ e)

/-- Mirror of the `statusLoop` task closure in `Run`: wraps a loop failure. -/
def statusLoopTask (loopErr : Option String) : Option String :=
  loopErr.map (fun e => "status loop: " ++ e)

/-- `errgroup.Group.Wait`: the first non-nil task error in completion
order, or nil when every task returned nil. -/
def egWait (results : List (Option String)) : Option String :=
  results.findSome? id

/-- Cancellation state of the context derived by `errgroup.WithContext`:
cancelled as soon as the external signal fires or any task in the group
returns a non-nil error. -/
def egCtxCancelled (externalCancelled : Bool) (results : List (Option String)) : Bool :=
  externalCancelled || results.any Option.isSome

/-- Mirror of `Troll.Run`: launches the setup task and, when the flag is
set, the status-loop task in one errgroup, then waits; `setupFinishesFirst`
fixes the completion order of the two tasks. -/
def Troll.Run (setupErr : Option String) (statusLoopFlag : Bool)
    (loopErr : Option String) (setupFinishesFirst : Bool) : Option String :=
  let tasks : List (Option String) :=
    if statusLoopFlag then
      if setupFinishesFirst then [setupTask setupErr, statusLoopTask loopErr]
      else [statusLoopTask loopErr, setupTask setupErr]
    else [setupTask setupErr]
  egWait tasks

/-!
Interleaving model for the lock-guarded store fields.  A stored record has
two machine words; a writer (`getUser` / `getSticker`) stores them at times
`wa < wb` inside `mu.Lock()`, a reader (`checkUserID` / `checkSticker`)
loads them at times `ra < rb` inside `mu.RLock()`.  `sync.RWMutex`
guarantees the two critical sections never overlap.
-/

/-- Value of one field cell at time `tm` given its single store at `wt`. -/
def fieldAt (oldV newV : Int) (wt tm : Nat) : Int :=
  if tm < wt then oldV else newV

/-- The record a concurrent reader assembles from its two loads at times
`ra` and `rb`, while the writer stores the fields at `wa` and `wb`. -/
def readPair (oldP newP : InputPeerUser) (wa wb ra rb : Nat) : InputPeerUser :=
  ⟨fieldAt oldP.userID newP.userID wa ra,
   fieldAt oldP.accessHash newP.accessHash wb rb⟩

/-- `sync.RWMutex` discipline: the writer's critical section (spanning its
stores at `wa ≤ wb`) and a reader's (spanning its loads at `ra ≤ rb`)
never overlap. -/
def rwMutexExclusive (wa wb ra rb : Nat) : Prop := rb < wa ∨ wb < ra

/-- The admission filter of `OnNewMessage`, spelled out: plain message, not
outgoing, individual-user peer, and a resolved target with the same user id. -/
def admits (t : Troll) (update : UpdateNewMessage) : Prop :=
  ∃ msg, update.message = .message msg ∧ msg.out = false ∧
    ∃ uid, msg.peerID = .user uid ∧
      ∃ res, t.resolved = some res ∧ res.userID = uid

lemma checkUserID_of_resolved (t : Troll) (res : InputPeerUser)
    (hres : t.resolved = some res) :
    t.checkUserID res.userID = (res, true) := by
  simp [Troll.checkUserID, hres]

lemma checkSticker_of_some (t : Troll) (d : Document) (h : t.sticker = some d) :
    t.checkSticker = (d, true) := by
  simp [Troll.checkSticker, h]

lemma onNewMessage_admitted_eq (t : Troll) (u : UpdateNewMessage) (o : Oracle)
    (msg : Message) (uid : Int) (res : InputPeerUser)
    (hmsg : u.message = .message msg) (hout : msg.out = false)
    (hpeer : msg.peerID = .user uid) (hres : t.resolved = some res)
    (huid : res.userID = uid) :
    t.OnNewMessage u o =
      if (t.checkSticker).2 && o.randInt % 2 == 0 then
        (Event.logGotMessage msg.message msg.date ::
          (Troll.ignored res msg.id (t.checkSticker).1 o).1, o.replyErr)
      else
        (Event.logGotMessage msg.message msg.date ::
          (Troll.revoke res msg.id o).1, o.deleteErr) := by
  subst huid
  have hc := checkUserID_of_resolved t res hres
  simp only [Troll.OnNewMessage, hmsg, hout, hpeer, hc, if_false, Bool.false_eq_true,
    if_true, Troll.ignored, Troll.revoke]
  cases hs : t.checkSticker with
  | mk d ok =>
    cases ok <;> simp [Troll.ignored, Troll.revoke]

lemma onNewMessage_not_admitted (t : Troll) (u : UpdateNewMessage) (o : Oracle)
    (h : ¬ admits t u) : t.OnNewMessage u o = ([], none) := by
  obtain ⟨mc⟩ := u
  cases mc with
  | message msg =>
    by_cases hout : msg.out
    · simp [Troll.OnNewMessage, hout]
    · cases hpeer : msg.peerID with
      | user uid =>
        cases hres : t.resolved with
        | none =>
          simp [Troll.OnNewMessage, hout, hpeer, Troll.checkUserID, hres]
        | some res =>
          by_cases huid : res.userID = uid
          · exact absurd ⟨msg, rfl, by simpa using hout, uid, hpeer, res, hres, huid⟩ h
          · simp [Troll.OnNewMessage, hout, hpeer, Troll.checkUserID, hres, huid]
      | chat cid => simp [Troll.OnNewMessage, hout, hpeer]
      | channel cid => simp [Troll.OnNewMessage, hout, hpeer]
  | messageService => simp [Troll.OnNewMessage]
  | messageEmpty => simp [Troll.OnNewMessage]

/-- C1: `OnNewMessage` reaches the log-and-dispatch step (the "Got message"
log line) exactly when the update carries a plain, non-outgoing message from
an individual-user peer whose user id equals the resolved target's user id;
whenever any condition fails it performs no action and returns nil. -/
theorem onNewMessage_admission (t : Troll) (u : UpdateNewMessage) (o : Oracle) :
    ((∃ s d, Event.logGotMessage s d ∈ (t.OnNewMessage u o).1) ↔ admits t u) ∧
    (¬ admits t u → t.OnNewMessage u o = ([], none)) := by
  constructor
  · constructor
    · intro ⟨s, d, hmem⟩
      by_contra hna
      rw [onNewMessage_not_admitted t u o hna] at hmem
      simp at hmem
    · intro ⟨msg, hmsg, hout, uid, hpeer, res, hres, huid⟩
      rw [onNewMessage_admitted_eq t u o msg uid res hmsg hout hpeer hres huid]
      refine ⟨msg.message, msg.date, ?_⟩
      split <;> simp
  · exact onNewMessage_not_admitted t u o

/-- Closed instance of `onNewMessage_admission`: a concrete admitted event
reaches the log step, and a concrete mismatched-peer event is a no-op. -/
theorem onNewMessage_admission_witness :
    (∃ s d, Event.logGotMessage s d ∈
      ((NewTroll "a" "s").OnNewMessage
        ⟨.message ⟨false, .user 42, 7, "hi", 100⟩⟩
        ⟨1, none, none, none⟩).1) ↔
      admits (NewTroll "a" "s") ⟨.message ⟨false, .user 42, 7, "hi", 100⟩⟩ :=
  (onNewMessage_admission (NewTroll "a" "s")
    ⟨.message ⟨false, .user 42, 7, "hi", 100⟩⟩ ⟨1, none, none, none⟩).1

/-- A concrete troll with resolved target user 42 (for closed instances). -/
def sampleTroll : Troll := { NewTroll "a" "s" with resolved := some ⟨42, 7⟩ }

/-- `sampleTroll` with a cached sticker. -/
def sampleTrollSticker : Troll := { sampleTroll with sticker := some ⟨5, 6⟩ }

/-- A concrete admitted inbound event: plain, not outgoing, from user 42. -/
def sampleUpdate : UpdateNewMessage := ⟨.message ⟨false, .user 42, 7, "hi", 100⟩⟩

/-- C2: for an admitted event, the asset-reply action is dispatched exactly
when a cached sticker is present and the random draw is even; otherwise the
revoke action is dispatched, and in particular a missing sticker forces the
revoke action (and never a reply) for every random draw. -/
theorem onNewMessage_dispatch (t : Troll) (u : UpdateNewMessage) (o : Oracle)
    (msg : Message) (uid : Int) (res : InputPeerUser)
    (hmsg : u.message = .message msg) (hout : msg.out = false)
    (hpeer : msg.peerID = .user uid) (hres : t.resolved = some res)
    (huid : res.userID = uid) :
    (∀ st, t.sticker = some st → o.randInt % 2 = 0 →
        t.OnNewMessage u o =
          ([.logGotMessage msg.message msg.date, .logAnswerSticker msg.id,
            .callReplyDocument res msg.id st], o.replyErr)) ∧
    ((t.sticker = none ∨ o.randInt % 2 ≠ 0) →
        t.OnNewMessage u o =
          (Event.logGotMessage msg.message msg.date :: (Troll.revoke res msg.id o).1,
            o.deleteErr) ∧
        ∀ p m d, Event.callReplyDocument p m d ∉ (t.OnNewMessage u o).1) ∧
    (t.sticker = none →
        Event.callRevokeMessages msg.id ∈ (t.OnNewMessage u o).1) := by
  have heq := onNewMessage_admitted_eq t u o msg uid res hmsg hout hpeer hres huid
  have hrevoke : (t.checkSticker).2 = false ∨ o.randInt % 2 ≠ 0 →
      t.OnNewMessage u o =
        (Event.logGotMessage msg.message msg.date :: (Troll.revoke res msg.id o).1,
          o.deleteErr) := by
    intro h
    rw [heq]
    rcases h with h | h
    · simp [h]
    · simp [h]
  refine ⟨?_, ?_, ?_⟩
  · intro st hst hrand
    rw [heq, checkSticker_of_some t st hst]
    simp [hrand, Troll.ignored]
  · intro h
    have h' : (t.checkSticker).2 = false ∨ o.randInt % 2 ≠ 0 := by
      rcases h with h | h
      · exact Or.inl (by simp [Troll.checkSticker, h])
      · exact Or.inr h
    have he := hrevoke h'
    refine ⟨he, ?_⟩
    intro p m d
    rw [he]
    cases hf : o.forwardErr <;> simp [Troll.revoke, hf]
  · intro h
    have he := hrevoke (Or.inl (by simp [Troll.checkSticker, h]))
    rw [he]
    cases hf : o.forwardErr <;> simp [Troll.revoke, hf]

/-- Closed instance of `onNewMessage_dispatch`: with no cached sticker and
an even draw, the concrete admitted event yields the revoke action and no
reply call. -/
theorem onNewMessage_dispatch_witness :
    Event.callRevokeMessages 7 ∈
      (sampleTroll.OnNewMessage sampleUpdate ⟨0, none, none, none⟩).1 ∧
    ∀ p m d, Event.callReplyDocument p m d ∉
      (sampleTroll.OnNewMessage sampleUpdate ⟨0, none, none, none⟩).1 :=
  ⟨(onNewMessage_dispatch sampleTroll sampleUpdate ⟨0, none, none, none⟩
      ⟨false, .user 42, 7, "hi", 100⟩ 42 ⟨42, 7⟩ rfl rfl rfl rfl rfl).2.2 rfl,
   ((onNewMessage_dispatch sampleTroll sampleUpdate ⟨0, none, none, none⟩
      ⟨false, .user 42, 7, "hi", 100⟩ 42 ⟨42, 7⟩ rfl rfl rfl rfl rfl).2.1
      (Or.inl rfl)).2⟩

/-- C4: in the revoke action the returned error is always the delete step's
result; the delete call happens regardless of the forward result; a forward
failure only logs a warning; and through `OnNewMessage` (revoke branch) the
caller sees exactly the delete step's error. -/
theorem revoke_error_policy (res : InputPeerUser) (msgID : Int) (o : Oracle) :
    (Troll.revoke res msgID o).2 = o.deleteErr ∧
    Event.callRevokeMessages msgID ∈ (Troll.revoke res msgID o).1 ∧
    (∀ e, o.forwardErr = some e →
        Event.logWarnForwardFailed e ∈ (Troll.revoke res msgID o).1) ∧
    (∀ t : Troll, ∀ u : UpdateNewMessage, ∀ msg : Message, ∀ uid : Int,
        u.message = .message msg → msg.out = false → msg.peerID = .user uid →
        t.resolved = some res → res.userID = uid → t.sticker = none →
        (t.OnNewMessage u o).2 = o.deleteErr) := by
  refine ⟨rfl, ?_, ?_, ?_⟩
  · cases hf : o.forwardErr <;> simp [Troll.revoke, hf]
  · intro e he
    simp [Troll.revoke, he]
  · intro t u msg uid hmsg hout hpeer hres huid hst
    rw [onNewMessage_admitted_eq t u o msg uid res hmsg hout hpeer hres huid]
    simp [Troll.checkSticker, hst]

/-- Closed instance of `revoke_error_policy`: with forward failing and
delete failing, the warning is logged and the concrete admitted event's
handler returns the delete error. -/
theorem revoke_error_policy_witness :
    Event.logWarnForwardFailed "fwd" ∈
      (Troll.revoke ⟨42, 7⟩ 9 ⟨1, none, some "fwd", some "del"⟩).1 ∧
    (sampleTroll.OnNewMessage sampleUpdate ⟨1, none, some "fwd", some "del"⟩).2 =
      some "del" :=
  ⟨(revoke_error_policy ⟨42, 7⟩ 9 ⟨1, none, some "fwd", some "del"⟩).2.2.1 "fwd" rfl,
   (revoke_error_policy ⟨42, 7⟩ 7 ⟨1, none, some "fwd", some "del"⟩).2.2.2
      sampleTroll sampleUpdate ⟨false, .user 42, 7, "hi", 100⟩ 42
      rfl rfl rfl rfl rfl rfl⟩

lemma getUser_sticker (t : Troll) (rr : Except String InputPeerClass) :
    (t.getUser rr).1.sticker = t.sticker := by
  cases rr with
  | error e => rfl
  | ok p => cases p <;> rfl

lemma getUser_err_state (t : Troll) (rr : Except String InputPeerClass)
    (h : (t.getUser rr).2.isSome) : (t.getUser rr).1 = t := by
  cases rr with
  | error e => rfl
  | ok p =>
    cases p with
    | user q => simp [Troll.getUser] at h
    | chat c => rfl
    | channel c => rfl

lemma getSticker_err_state (t : Troll) (fr : Except String StickerSet)
    (h : (t.getSticker fr).2.isSome) : (t.getSticker fr).1 = t := by
  cases fr with
  | error e => rfl
  | ok set =>
    cases hl : set.documents.getLast? with
    | none => simp [Troll.getSticker, hl]
    | some lastDoc =>
      cases hd : lastDoc.asNotEmpty with
      | none => simp [Troll.getSticker, hl, hd]
      | some st => simp [Troll.getSticker, hl, hd] at h

/-- C3: `setup` returns an error exactly when the identity-resolution step
(`getUser`) fails; when `getUser` succeeds and `getSticker` fails, `setup`
logs the sticker warning, returns nil, and leaves the cached asset as it
was. -/
theorem setup_fatal_iff (t : Troll) (rr : Except String InputPeerClass)
    (fr : Except String StickerSet) :
    ((t.setup rr fr).2.2.isSome ↔ (t.getUser rr).2.isSome) ∧
    (∀ e, (t.getUser rr).2 = none → ((t.getUser rr).1.getSticker fr).2 = some e →
        (t.setup rr fr).2.2 = none ∧
        (t.setup rr fr).2.1 = [Event.logWarnGetSticker e] ∧
        (t.setup rr fr).1.sticker = t.sticker) := by
  rcases hg : t.getUser rr with ⟨t1, uerr⟩
  have hsticker : t1.sticker = t.sticker := by
    have h := getUser_sticker t rr
    rw [hg] at h
    exact h
  cases uerr with
  | some e0 =>
    constructor
    · simp [Troll.setup, hg]
    · intro e hnone _
      simp at hnone
  | none =>
    rcases hs : t1.getSticker fr with ⟨t2, serr⟩
    cases serr with
    | some e0 =>
      have ht2 : t2 = t1 := by
        have h := getSticker_err_state t1 fr (by rw [hs]; rfl)
        rw [hs] at h
        exact h
      constructor
      · simp [Troll.setup, hg, hs]
      · intro e _ hsome
        have he : e0 = e := by simpa using hsome
        subst he
        exact ⟨by simp [Troll.setup, hg, hs], by simp [Troll.setup, hg, hs],
          by simp [Troll.setup, hg, hs, ht2, hsticker]⟩
    | none =>
      constructor
      · simp [Troll.setup, hg, hs]
      · intro e _ hsome
        simp at hsome

/-- Closed instance of `setup_fatal_iff`: with identity resolution
succeeding and the sticker fetch failing, `setup` reports success, logs the
warning, and the cached asset stays absent. -/
theorem setup_fatal_iff_witness :
    ((NewTroll "a" "s").setup (.ok (.user ⟨42, 7⟩)) (.error "boom")).2.2 = none ∧
    ((NewTroll "a" "s").setup (.ok (.user ⟨42, 7⟩)) (.error "boom")).1.sticker = none :=
  have h := (setup_fatal_iff (NewTroll "a" "s") (.ok (.user ⟨42, 7⟩))
      (.error "boom")).2 ("get sticker set " ++ "s") rfl rfl
  ⟨h.1, h.2.2⟩

/-- C6: when the sticker-set fetch succeeds and the item at index
`length - 1` is a non-empty document `d`, `getSticker` succeeds and stores
exactly `d`, and so does `setup` after a successful resolution. -/
theorem getSticker_stores_last (t : Troll) (set : StickerSet) (d : Document)
    (hlast : set.documents[set.documents.length - 1]? = some (.document d)) :
    (t.getSticker (.ok set)).1.sticker = some d ∧
    (t.getSticker (.ok set)).2 = none ∧
    (∀ p : InputPeerUser, (t.setup (.ok (.user p)) (.ok set)).1.sticker = some d) := by
  have hl : set.documents.getLast? = some (DocumentClass.document d) := by
    rw [List.getLast?_eq_getElem?]
    exact hlast
  refine ⟨?_, ?_, ?_⟩
  · simp [Troll.getSticker, hl, DocumentClass.asNotEmpty]
  · simp [Troll.getSticker, hl, DocumentClass.asNotEmpty]
  · intro p
    simp [Troll.setup, Troll.getUser, Troll.getSticker, hl, DocumentClass.asNotEmpty]

/-- Closed instance of `getSticker_stores_last`: a 3-item collection whose
items are documents 1, 2, 3 caches document 3 (= collection[2]). -/
theorem getSticker_stores_last_witness :
    ((NewTroll "a" "s").getSticker
        (.ok ⟨[.document ⟨1, 1⟩, .document ⟨2, 2⟩, .document ⟨3, 3⟩]⟩)).1.sticker =
      some ⟨3, 3⟩ :=
  (getSticker_stores_last (NewTroll "a" "s")
    ⟨[.document ⟨1, 1⟩, .document ⟨2, 2⟩, .document ⟨3, 3⟩]⟩ ⟨3, 3⟩ rfl).1

/-- C10: a failing `getUser` and a failing `getSticker` leave the whole
store (in particular the resolved target and the cached asset) exactly as
it was. -/
theorem failed_substep_preserves_store (t : Troll)
    (rr : Except String InputPeerClass) (fr : Except String StickerSet) :
    ((t.getUser rr).2.isSome → (t.getUser rr).1 = t) ∧
    ((t.getSticker fr).2.isSome → (t.getSticker fr).1 = t) :=
  ⟨getUser_err_state t rr, getSticker_err_state t fr⟩

/-- Closed instance of `failed_substep_preserves_store`: failing calls
leave `sampleTrollSticker` untouched. -/
theorem failed_substep_preserves_store_witness :
    (sampleTrollSticker.getUser (.error "x")).1 = sampleTrollSticker ∧
    (sampleTrollSticker.getSticker (.error "y")).1 = sampleTrollSticker :=
  ⟨(failed_substep_preserves_store sampleTrollSticker (.error "x") (.error "y")).1 rfl,
   (failed_substep_preserves_store sampleTrollSticker (.error "x") (.error "y")).2 rfl⟩

/-- C5: `Run` returns nil exactly when every launched task returned nil
(setup, plus the status loop when enabled); any non-nil return is the
wrapped error of one of the launched tasks, and it is the error of
whichever failed task finished first; a failure of either task cancels the
shared errgroup context. -/
theorem Run_first_error (setupErr loopErr : Option String) (flag fst : Bool) :
    (Troll.Run setupErr flag loopErr fst = none ↔
        (setupErr = none ∧ (flag = true → loopErr = none))) ∧
    (∀ e, Troll.Run setupErr flag loopErr fst = some e →
        (∃ e0, setupErr = some e0 ∧ e = "setup: " ++ e0) ∨
        (flag = true ∧ ∃ e0, loopErr = some e0 ∧ e = "status loop: " ++ e0)) ∧
    (∀ e0, setupErr = some e0 → fst = true →
        Troll.Run setupErr flag loopErr fst = some ("setup: " ++ e0)) ∧
    (∀ e0, loopErr = some e0 → flag = true → fst = false →
        Troll.Run setupErr flag loopErr fst = some ("status loop: " ++ e0)) ∧
    ((setupErr.isSome ∨ (flag = true ∧ loopErr.isSome)) →
        egCtxCancelled false
          (if flag then
            (if fst then [setupTask setupErr, statusLoopTask loopErr]
             else [statusLoopTask loopErr, setupTask setupErr])
           else [setupTask setupErr]) = true) := by
  cases setupErr <;> cases loopErr <;> cases flag <;> cases fst <;>
    simp [Troll.Run, egWait, setupTask, statusLoopTask, egCtxCancelled,
      List.findSome?]

/-- Closed instance of `Run_first_error`: with setup failing first (loop
enabled), `Run` returns the wrapped setup error. -/
theorem Run_first_error_witness :
    Troll.Run (some "boom") true (some "ctx") true = some ("setup: " ++ "boom") :=
  (Run_first_error (some "boom") (some "ctx") true true).2.2.1 "boom" rfl rfl

/-- C7: `OnNewMessage` never consults the limiter — two runs on states that
differ only in limiter state are identical; the configured limiter permits
one action per 15-second window (burst 1); and two admitted events, even
with dates in the same 15-second window, both dispatch an action. -/
theorem limiter_not_consulted
    (t : Troll) (l l2 : Limiter) (u : UpdateNewMessage) (o : Oracle)
    (d s : String)
    (u1 u2 : UpdateNewMessage) (m1 m2 : Message) (uid1 uid2 : Int)
    (res : InputPeerUser) (o1 o2 : Oracle)
    (h1 : u1.message = .message m1) (ho1 : m1.out = false)
    (hp1 : m1.peerID = .user uid1)
    (h2 : u2.message = .message m2) (ho2 : m2.out = false)
    (hp2 : m2.peerID = .user uid2)
    (hres : t.resolved = some res) (hu1 : res.userID = uid1)
    (hu2 : res.userID = uid2)
    (_hwindow : m2.date - m1.date < 15) :
    Troll.OnNewMessage { t with limiter := l } u o =
      Troll.OnNewMessage { t with limiter := l2 } u o ∧
    (NewTroll d s).limiter.intervalSeconds = 15 ∧
    (NewTroll d s).limiter.burst = 1 ∧
    (t.OnNewMessage u1 o1).1 ≠ [] ∧
    (t.OnNewMessage u2 o2).1 ≠ [] := by
  refine ⟨rfl, rfl, rfl, ?_, ?_⟩
  · rw [onNewMessage_admitted_eq t u1 o1 m1 uid1 res h1 ho1 hp1 hres hu1]
    split <;> simp
  · rw [onNewMessage_admitted_eq t u2 o2 m2 uid2 res h2 ho2 hp2 hres hu2]
    split <;> simp

/-- Closed instance of `limiter_not_consulted`: two concrete admitted
events with dates 100 and 110 (same 15-second window) both dispatch. -/
theorem limiter_not_consulted_witness :
    (sampleTroll.OnNewMessage sampleUpdate ⟨0, none, none, none⟩).1 ≠ [] ∧
    (sampleTroll.OnNewMessage ⟨.message ⟨false, .user 42, 8, "yo", 110⟩⟩
        ⟨1, none, none, none⟩).1 ≠ [] :=
  have h := limiter_not_consulted sampleTroll
    (NewTroll "a" "s").limiter (NewTroll "a" "s").limiter sampleUpdate
    ⟨0, none, none, none⟩ "a" "s"
    sampleUpdate ⟨.message ⟨false, .user 42, 8, "yo", 110⟩⟩
    ⟨false, .user 42, 7, "hi", 100⟩ ⟨false, .user 42, 8, "yo", 110⟩ 42 42
    ⟨42, 7⟩ ⟨0, none, none, none⟩ ⟨1, none, none, none⟩
    rfl rfl rfl rfl rfl rfl rfl rfl rfl (by decide)
  ⟨h.2.2.2.1, h.2.2.2.2⟩

/-- C8: the status loop issues exactly one presence call per ticker firing
(failed calls are logged and never end the loop), terminates only at the
cancellation point of its schedule, returns the cancellation's error, and
its ticker interval is 2 minutes. -/
theorem statusLoop_spec (ticks : List (Option String)) (ctxErr : String) :
    (statusLoopRun ticks ctxErr).2 = ctxErr ∧
    ((statusLoopRun ticks ctxErr).1.count Event.callUpdateStatus = ticks.length) ∧
    statusLoopInterval = 120 := by
  refine ⟨?_, ?_, rfl⟩
  · induction ticks with
    | nil => rfl
    | cons r rest ih => simp [statusLoopRun, ih]
  · induction ticks with
    | nil => rfl
    | cons r rest ih =>
      cases r <;> simp [statusLoopRun, List.count_cons, ih]

/-- C9: under the `sync.RWMutex` discipline (writer and reader critical
sections never overlap), a reader assembling the two fields of the stored
record observes the complete old value or the complete new value, never a
torn mix; and `checkUserID` / `checkSticker` hand back the complete stored
snapshot. -/
theorem store_reads_not_torn (oldP newP : InputPeerUser) (wa wb ra rb : Nat)
    (hw : wa ≤ wb) (hr : ra ≤ rb) (hx : rwMutexExclusive wa wb ra rb) :
    (readPair oldP newP wa wb ra rb = oldP ∨
      readPair oldP newP wa wb ra rb = newP) ∧
    (∀ t : Troll, ∀ res : InputPeerUser, t.resolved = some res →
        t.checkUserID res.userID = (res, true)) ∧
    (∀ t : Troll, ∀ d : Document, t.sticker = some d →
        t.checkSticker = (d, true)) := by
  refine ⟨?_, fun t res h => checkUserID_of_resolved t res h,
    fun t d h => checkSticker_of_some t d h⟩
  rcases hx with h | h
  · left
    have h1 : ra < wa := lt_of_le_of_lt hr h
    have h2 : rb < wb := lt_of_lt_of_le h hw
    simp [readPair, fieldAt, h1, h2]
  · right
    have h1 : ¬ ra < wa := by omega
    have h2 : ¬ rb < wb := by omega
    simp [readPair, fieldAt, h1, h2]

/-- Closed instance of `store_reads_not_torn`: a concrete read entirely
before a concrete write sees the old or the new complete record. -/
theorem store_reads_not_torn_witness :
    readPair ⟨1, 2⟩ ⟨3, 4⟩ 5 6 1 2 = ⟨1, 2⟩ ∨
    readPair ⟨1, 2⟩ ⟨3, 4⟩ 5 6 1 2 = ⟨3, 4⟩ :=
  (store_reads_not_torn ⟨1, 2⟩ ⟨3, 4⟩ 5 6 1 2 (by decide) (by decide)
    (Or.inl (by decide))).1

end Trolljitrs
